import Mathlib

/-!
Verification development for the simple-metrics-collector alert engine
(src/demo.sh, embedded server code).

Shallow embedding conventions:
- JavaScript numbers reached through `parseFloat` are modelled as `Option ℚ`
  (`none` models `NaN`, i.e. the input did not parse as a float).
- A JS value that flows both into `parseFloat` and into payloads as raw text
  is modelled as a `JsValue`: its string rendering together with its
  `parseFloat` interpretation.
- Timestamps are `Int` (seconds, as produced by the `POST /api/metrics`
  handler, which floors milliseconds to seconds); nullable DB columns are
  `Option`.
- The DB tables `alerts` and `webhook_configs` are modelled as lists; a
  sequelize `update` keyed on a unique id is modelled as a map over the list.
- Exceptions (thrown by awaited DB calls) are modelled with `Except`.
-/

/-- Model of a JavaScript value as seen by the alert engine: its string
rendering (used in payloads) paired with its `parseFloat` interpretation
(`none` when `parseFloat` yields `NaN`). -/
structure JsValue where
  str : String
  num : Option ℚ
deriving DecidableEq, Repr

/-- Embedding of `checkAlertCondition(value, condition, threshold)`
(src/demo.sh lines 875-900): parse both sides; `NaN` on either side yields
`false`; otherwise apply the comparison selected by the condition string,
with unknown condition strings yielding `false`. -/
def checkAlertCondition (value : JsValue) (condition : String) (threshold : JsValue) : Bool :=
  match value.num, threshold.num with
  | some numValue, some numThreshold =>
    if condition = ">" then decide (numValue > numThreshold)
    else if condition = "<" then decide (numValue < numThreshold)
    else if condition = ">=" then decide (numValue ≥ numThreshold)
    else if condition = "<=" then decide (numValue ≤ numThreshold)
    else if condition = "==" then decide (numValue = numThreshold)
    else if condition = "!=" then decide (numValue ≠ numThreshold)
    else false
  | _, _ => false

/-- One row of the `webhook_configs` table (the fields the engine reads). -/
structure Webhook where
  id : Nat
  appId : String
  name : String
  url : String
  format : String
  enabled : Bool
deriving DecidableEq, Repr

/-- One row of the `alerts` table: configuration plus mutable runtime state
(src/demo.sh lines 550-637).  `threshold` is stored as a string in the DB and
parsed with `parseFloat` at evaluation time, hence `JsValue`.
`expectedIntervalSeconds` is nullable in the DB but alert creation rejects a
missing or zero value whenever `treatMissingAsBreach` is set, so it is
modelled as `Int` and theorems that need it carry a positivity hypothesis. -/
structure Alert where
  id : Nat
  appId : String
  metric : String
  condition : String
  threshold : JsValue
  enterThreshold : Nat
  exitThreshold : Nat
  webhookFrequencyMinutes : Nat
  enabled : Bool
  consecutiveBreaches : Nat
  consecutiveRecoveries : Nat
  isAlerting : Bool
  lastTriggered : Option Int
  treatMissingAsBreach : Bool
  expectedIntervalSeconds : Int
  lastDataTimestamp : Option Int
deriving DecidableEq, Repr

/-- The `alert` sub-object embedded in webhook payloads.  The optional fields
are present only in some transition payloads, mirroring the three payload
literals in the source. -/
structure AlertInfo where
  id : Nat
  metric : String
  condition : String
  threshold : String
  enterThreshold : Option Nat := none
  exitThreshold : Option Nat := none
  webhookFrequencyMinutes : Option Nat := none
deriving DecidableEq, Repr

/-- A webhook notification payload as built by `checkAndTriggerAlerts` and
`checkForMissingData`.  `state` is one of `"entered"`, `"active"`,
`"recovered"`; `reason` is `some "missing_data"` only for sweep payloads. -/
structure WebhookPayload where
  appId : String
  alert : AlertInfo
  value : String
  timestamp : Int
  state : String
  consecutiveBreaches : Option Nat := none
  consecutiveRecoveries : Option Nat := none
  triggeredAt : String
  reason : Option String := none
deriving DecidableEq, Repr

/-- One dispatch: `callWebhook(webhook.url, payload, history, webhook.format)`
for one destination.  The history record repeats the payload state, so the
pair captures the observable call. -/
structure Call where
  webhook : Webhook
  payload : WebhookPayload
deriving DecidableEq, Repr

/-- Left-pad a natural number to two digits. -/
def pad2 (n : Nat) : String :=
  if n < 10 then "0" ++ toString n else toString n

/-- Left-pad a natural number to three digits. -/
def pad3 (n : Nat) : String :=
  if n < 10 then "00" ++ toString n
  else if n < 100 then "0" ++ toString n
  else toString n

/-- Left-pad a natural number to four digits. -/
def pad4 (n : Nat) : String :=
  if n < 10 then "000" ++ toString n
  else if n < 100 then "00" ++ toString n
  else if n < 1000 then "0" ++ toString n
  else toString n

/-- Civil date from days since the Unix epoch (standard proleptic-Gregorian
conversion, as used by JS `Date`): returns (year, month, day). -/
def civilFromDays (z0 : Int) : Int × Int × Int :=
  let z := z0 + 719468
  let era := Int.fdiv z 146097
  let doe := z - era * 146097
  let yoe := Int.fdiv (doe - Int.fdiv doe 1460 + Int.fdiv doe 36524 - Int.fdiv doe 146096) 365
  let y := yoe + era * 400
  let doy := doe - (365 * yoe + Int.fdiv yoe 4 - Int.fdiv yoe 100)
  let mp := Int.fdiv (5 * doy + 2) 153
  let d := doy - Int.fdiv (153 * mp + 2) 5 + 1
  let m := if mp < 10 then mp + 3 else mp - 9
  (if m ≤ 2 then y + 1 else y, m, d)

/-- Days since the Unix epoch from a civil date (inverse of `civilFromDays`). -/
def daysFromCivil (y m d : Int) : Int :=
  let y2 := if m ≤ 2 then y - 1 else y
  let era := Int.fdiv y2 400
  let yoe := y2 - era * 400
  let mp := if 2 < m then m - 3 else m + 9
  let doy := Int.fdiv (153 * mp + 2) 5 + d - 1
  let doe := yoe * 365 + Int.fdiv yoe 4 - Int.fdiv yoe 100 + doy
  era * 146097 + doe - 719468

/-- Embedding of JS `new Date(ms).toISOString()` on an integral millisecond
epoch value: renders `YYYY-MM-DDTHH:mm:ss.sssZ`. -/
def jsToISOString (ms : Int) : String :=
  let days := Int.fdiv ms 86400000
  let msOfDay := (ms - days * 86400000).toNat
  let ymd := civilFromDays days
  let hh := msOfDay / 3600000
  let mi := msOfDay % 3600000 / 60000
  let ss := msOfDay % 60000 / 1000
  let mss := msOfDay % 1000
  pad4 ymd.1.toNat ++ "-" ++ pad2 ymd.2.1.toNat ++ "-" ++ pad2 ymd.2.2.toNat ++ "T" ++
    pad2 hh ++ ":" ++ pad2 mi ++ ":" ++ pad2 ss ++ "." ++ pad3 mss ++ "Z"

/-- The `state: 'entered'` payload literal of `checkAndTriggerAlerts`
(src/demo.sh lines 1172-1187). -/
def enteredPayload (appId metricName : String) (value : JsValue) (timestamp : Int)
    (alert : Alert) (newBreachCount : Nat) : WebhookPayload :=
  { appId := appId
    alert := { id := alert.id, metric := metricName, condition := alert.condition,
               threshold := alert.threshold.str,
               enterThreshold := some alert.enterThreshold,
               exitThreshold := some alert.exitThreshold }
    value := value.str
    timestamp := timestamp
    state := "entered"
    consecutiveBreaches := some newBreachCount
    triggeredAt := jsToISOString timestamp }

/-- The `state: 'active'` repeat payload literal of `checkAndTriggerAlerts`
(src/demo.sh lines 1209-1223). -/
def activePayload (appId metricName : String) (value : JsValue) (timestamp : Int)
    (alert : Alert) (newBreachCount : Nat) : WebhookPayload :=
  { appId := appId
    alert := { id := alert.id, metric := metricName, condition := alert.condition,
               threshold := alert.threshold.str,
               webhookFrequencyMinutes := some alert.webhookFrequencyMinutes }
    value := value.str
    timestamp := timestamp
    state := "active"
    consecutiveBreaches := some newBreachCount
    triggeredAt := jsToISOString timestamp }

/-- The `state: 'recovered'` payload literal of `checkAndTriggerAlerts`
(src/demo.sh lines 1262-1275). -/
def recoveredPayload (appId metricName : String) (value : JsValue) (timestamp : Int)
    (alert : Alert) (newRecoveryCount : Nat) : WebhookPayload :=
  { appId := appId
    alert := { id := alert.id, metric := metricName, condition := alert.condition,
               threshold := alert.threshold.str }
    value := value.str
    timestamp := timestamp
    state := "recovered"
    consecutiveRecoveries := some newRecoveryCount
    triggeredAt := jsToISOString timestamp }

/-- The body of the per-alert loop of `checkAndTriggerAlerts`
(src/demo.sh lines 1123-1290) for one alert and one real sample: evaluates
the condition, updates `lastDataTimestamp`, applies the breach or recovery
branch, and returns the updated alert row together with the webhook calls
made.  The two sequential `Alert.update` calls of the source are merged into
the single resulting row. -/
def processAlertSample (webhooks : List Webhook) (appId metricName : String)
    (value : JsValue) (timestamp : Int) (alert : Alert) : Alert × List Call :=
  let isBreaching := checkAlertCondition value alert.condition alert.threshold
  let now := timestamp
  let a1 : Alert := { alert with lastDataTimestamp := some now }
  if isBreaching then
    let newBreachCount := alert.consecutiveBreaches + 1
    -- contested-recovery rule: keep the recovery counter unless the new
    -- breach count reaches enterThreshold again
    let newRecoveries : Nat :=
      if alert.isAlerting ∧ 0 < alert.consecutiveRecoveries then
        (if newBreachCount < alert.enterThreshold then alert.consecutiveRecoveries else 0)
      else 0
    if alert.isAlerting = false ∧ alert.enterThreshold ≤ newBreachCount then
      ({ a1 with consecutiveBreaches := newBreachCount
                 consecutiveRecoveries := newRecoveries
                 isAlerting := true
                 lastTriggered := some now },
       webhooks.map (fun w => ⟨w, enteredPayload appId metricName value timestamp alert newBreachCount⟩))
    else if alert.isAlerting then
      let timeSinceLastTrigger := now - (alert.lastTriggered.getD 0)
      let webhookFrequencyMs : Int := (alert.webhookFrequencyMinutes : Int) * 60 * 1000
      if webhookFrequencyMs ≤ timeSinceLastTrigger then
        ({ a1 with consecutiveBreaches := newBreachCount
                   consecutiveRecoveries := newRecoveries
                   lastTriggered := some now },
         webhooks.map (fun w => ⟨w, activePayload appId metricName value timestamp alert newBreachCount⟩))
      else
        ({ a1 with consecutiveBreaches := newBreachCount
                   consecutiveRecoveries := newRecoveries }, [])
    else
      ({ a1 with consecutiveBreaches := newBreachCount
                 consecutiveRecoveries := newRecoveries }, [])
  else
    let newRecoveryCount := alert.consecutiveRecoveries + 1
    if alert.isAlerting = true ∧ alert.exitThreshold ≤ newRecoveryCount then
      ({ a1 with consecutiveBreaches := 0
                 consecutiveRecoveries := newRecoveryCount
                 isAlerting := false },
       webhooks.map (fun w => ⟨w, recoveredPayload appId metricName value timestamp alert newRecoveryCount⟩))
    else
      ({ a1 with consecutiveBreaches := 0
                 consecutiveRecoveries := newRecoveryCount }, [])

/-- Predicate for the `Alert.findAll` filter of `checkAndTriggerAlerts`:
same app, same metric, enabled. -/
def alertMatches (appId metricName : String) (a : Alert) : Bool :=
  a.appId = appId ∧ a.metric = metricName ∧ a.enabled

/-- Predicate for the `WebhookConfig.findAll` filter: same app, enabled. -/
def webhookMatches (appId : String) (w : Webhook) : Bool :=
  w.appId = appId ∧ w.enabled

/-- Embedding of `checkAndTriggerAlerts(appId, metricName, value, timestamp)`
(src/demo.sh lines 1094-1295) over the alert and webhook tables: returns if
no enabled alert matches or no enabled webhook exists for the app; otherwise
runs the per-alert loop body on each matching alert (each row is touched at
most once, so the sequential loop is a map over the table). -/
def checkAndTriggerAlerts (alertTable : List Alert) (webhookTable : List Webhook)
    (appId metricName : String) (value : JsValue) (timestamp : Int) :
    List Alert × List Call :=
  let alerts := alertTable.filter (alertMatches appId metricName)
  if alerts = [] then (alertTable, [])
  else
    let webhooks := webhookTable.filter (webhookMatches appId)
    if webhooks = [] then (alertTable, [])
    else
      (alertTable.map (fun a =>
         if alertMatches appId metricName a then
           (processAlertSample webhooks appId metricName value timestamp a).1
         else a),
       (alerts.map (fun a =>
         (processAlertSample webhooks appId metricName value timestamp a).2)).flatten)

/-- The `NO DATA` sentinel fed into sweep payloads in place of a sample value. -/
def noDataValue : String := "NO DATA"

/-- The `state: 'entered'` payload literal of `checkForMissingData`
(src/demo.sh lines 1346-1362): value is the `NO DATA` sentinel, the payload
is tagged `reason: missing_data`, and `triggeredAt` converts the second-based
`now` to milliseconds before rendering. -/
def missingEnteredPayload (now : Int) (alert : Alert) (newBreachCount : Nat) : WebhookPayload :=
  { appId := alert.appId
    alert := { id := alert.id, metric := alert.metric, condition := alert.condition,
               threshold := alert.threshold.str,
               enterThreshold := some alert.enterThreshold,
               exitThreshold := some alert.exitThreshold }
    value := noDataValue
    timestamp := now
    state := "entered"
    consecutiveBreaches := some newBreachCount
    triggeredAt := jsToISOString (now * 1000)
    reason := some "missing_data" }

/-- The `state: 'active'` repeat payload literal of `checkForMissingData`
(src/demo.sh lines 1384-1399). -/
def missingActivePayload (now : Int) (alert : Alert) (newBreachCount : Nat) : WebhookPayload :=
  { appId := alert.appId
    alert := { id := alert.id, metric := alert.metric, condition := alert.condition,
               threshold := alert.threshold.str,
               webhookFrequencyMinutes := some alert.webhookFrequencyMinutes }
    value := noDataValue
    timestamp := now
    state := "active"
    consecutiveBreaches := some newBreachCount
    triggeredAt := jsToISOString (now * 1000)
    reason := some "missing_data" }

/-- The body of the per-alert loop of `checkForMissingData`
(src/demo.sh lines 1310-1415) for one opted-in alert: skip when
`lastDataTimestamp` is JS-falsy (`null` or `0`); otherwise compute
`missedIntervals = Math.floor((now - lastDataTimestamp) / expectedIntervalSeconds)`
(floor division, as `Int.fdiv`) and, when at least two intervals have been
missed, apply one synthetic breach.  Note that unlike the real-sample path
this branch always resets `consecutiveRecoveries` to 0, never updates
`lastDataTimestamp`, and compares the repeat interval against
`webhookFrequencyMinutes * 60` (a seconds value, despite the source variable
name `webhookFrequencyMs`). -/
def sweepAlert (webhooks : List Webhook) (now : Int) (alert : Alert) : Alert × List Call :=
  match alert.lastDataTimestamp with
  | none => (alert, [])
  | some t =>
    if t = 0 then (alert, [])
    else
      let secondsSinceLastData := now - t
      let missedIntervals := Int.fdiv secondsSinceLastData alert.expectedIntervalSeconds
      if 2 ≤ missedIntervals then
        let newBreachCount := alert.consecutiveBreaches + 1
        if alert.isAlerting = false ∧ alert.enterThreshold ≤ newBreachCount then
          ({ alert with consecutiveBreaches := newBreachCount
                        consecutiveRecoveries := 0
                        isAlerting := true
                        lastTriggered := some now },
           webhooks.map (fun w => ⟨w, missingEnteredPayload now alert newBreachCount⟩))
        else if alert.isAlerting then
          let timeSinceLastTrigger := now - (alert.lastTriggered.getD 0)
          let webhookFrequencyMs : Int := (alert.webhookFrequencyMinutes : Int) * 60
          if webhookFrequencyMs ≤ timeSinceLastTrigger then
            ({ alert with consecutiveBreaches := newBreachCount
                          consecutiveRecoveries := 0
                          lastTriggered := some now },
             webhooks.map (fun w => ⟨w, missingActivePayload now alert newBreachCount⟩))
          else
            ({ alert with consecutiveBreaches := newBreachCount
                          consecutiveRecoveries := 0 }, [])
        else
          ({ alert with consecutiveBreaches := newBreachCount
                        consecutiveRecoveries := 0 }, [])
      else (alert, [])

/-- Predicate for the `Alert.findAll` filter of `checkForMissingData`:
enabled with `treatMissingAsBreach` set. -/
def sweepMatches (a : Alert) : Bool :=
  a.enabled ∧ a.treatMissingAsBreach

/-- Embedding of the `checkForMissingData()` sweep
(src/demo.sh lines 1298-1420) over the alert and webhook tables at time
`now`: every enabled, opted-in alert is swept once per tick, each against
the enabled webhooks of its own app. -/
def checkForMissingData (alertTable : List Alert) (webhookTable : List Webhook)
    (now : Int) : List Alert × List Call :=
  (alertTable.map (fun a =>
     if sweepMatches a then
       (sweepAlert (webhookTable.filter (webhookMatches a.appId)) now a).1
     else a),
   ((alertTable.filter sweepMatches).map (fun a =>
     (sweepAlert (webhookTable.filter (webhookMatches a.appId)) now a).2)).flatten)

/-- Control-flow skeleton of both per-alert loops under exceptions: the whole
`for` loop is wrapped in a single `try/catch` (src/demo.sh lines 1095 and
1292-1294 for the sample path, 1299 and 1417-1419 for the sweep), so the
caller never sees an exception, but a step that throws stops the loop and
leaves its own alert and every later sibling unprocessed, while alerts
already processed keep their persisted updates.  The per-alert step is
abstracted because faults originate in the environment (awaited DB calls). -/
def processAlertsExc (step : Alert → Except String Alert) : List Alert → List Alert
  | [] => []
  | a :: rest =>
    match step a with
    | .ok a2 => a2 :: processAlertsExc step rest
    | .error _ => a :: rest

/-- Fold of `processAlertSample` over a sample sequence for one alert,
accumulating webhook calls, for concrete scenario runs. -/
def runSamples (webhooks : List Webhook) (appId metricName : String)
    (samples : List (JsValue × Int)) (alert : Alert) : Alert × List Call :=
  match samples with
  | [] => (alert, [])
  | (v, ts) :: rest =>
    let r := processAlertSample webhooks appId metricName v ts alert
    let r2 := runSamples webhooks appId metricName rest r.1
    (r2.1, r.2 ++ r2.2)

/-- One entry of the `fields` array of a Discord embed. -/
structure DiscordField where
  name : String
  value : String
  inline : Bool
deriving DecidableEq, Repr

/-- The Discord message body built by `formatWebhookPayload` for
`format === 'discord'`: a single embed with title, decimal color, fields,
footer text and timestamp (src/demo.sh lines 904-976). -/
structure DiscordBody where
  title : String
  color : Nat
  fields : List DiscordField
  footerText : String
  timestamp : String
deriving DecidableEq, Repr

/-- The Slack message body built by `formatWebhookPayload` for
`format === 'slack'`: a text message plus one attachment carrying a color
string, a footer, and a Unix-epoch-seconds `ts` number
(src/demo.sh lines 978-1023).  `ts` is `none` when the `triggeredAt` string
does not parse as a date (JS `NaN`). -/
structure SlackBody where
  text : String
  color : String
  footer : String
  ts : Option Int
deriving DecidableEq, Repr

/-- Result of `formatWebhookPayload`: discord and slack bodies are rebuilt,
any other format tag passes the payload through unchanged. -/
inductive FormattedBody where
  | discord : DiscordBody → FormattedBody
  | slack : SlackBody → FormattedBody
  | generic : WebhookPayload → FormattedBody
deriving DecidableEq, Repr

/-- Numeric value of a decimal digit character, `none` otherwise. -/
def digitVal (c : Char) : Option Nat :=
  if c.isDigit then some (c.toNat - 48) else none

/-- Embedding of `new Date(s).getTime()` restricted to the strict ISO-8601
shape `YYYY-MM-DDTHH:mm:ss.sssZ` that `toISOString` produces (the only shape
this system feeds it): returns epoch milliseconds, or `none` (JS `NaN`) when
the string does not match. -/
def jsDateParseMs (s : String) : Option Int :=
  match s.data with
  | [y1, y2, y3, y4, c1, m1, m2, c2, d1, d2, c3, h1, h2, c4, i1, i2, c5, s1, s2, c6, f1, f2, f3, c7] =>
    match digitVal y1, digitVal y2, digitVal y3, digitVal y4, digitVal m1, digitVal m2,
          digitVal d1, digitVal d2, digitVal h1, digitVal h2, digitVal i1, digitVal i2,
          digitVal s1, digitVal s2, digitVal f1, digitVal f2, digitVal f3 with
    | some a1, some a2, some a3, some a4, some b1, some b2, some e1, some e2,
      some g1, some g2, some j1, some j2, some k1, some k2, some l1, some l2, some l3 =>
      if c1 = '-' ∧ c2 = '-' ∧ c3 = 'T' ∧ c4 = ':' ∧ c5 = ':' ∧ c6 = '.' ∧ c7 = 'Z' then
        let y : Int := ((a1 * 10 + a2) * 10 + a3) * 10 + a4
        let mo : Int := b1 * 10 + b2
        let dd : Int := e1 * 10 + e2
        let secOfDay : Int := ((g1 * 10 + g2) * 3600 + (j1 * 10 + j2) * 60 + (k1 * 10 + k2) : Nat)
        let msFrac : Int := ((l1 * 10 + l2) * 10 + l3 : Nat)
        some ((daysFromCivil y mo dd * 86400 + secOfDay) * 1000 + msFrac)
      else none
    | _, _, _, _, _, _, _, _, _, _, _, _, _, _, _, _, _ => none
  | _ => none

/-- The (emoji, color, stateText) selection of the discord branch of
`formatWebhookPayload` (src/demo.sh lines 907-924). -/
def discordStateTriple (state : String) : String × Nat × String :=
  if state = "entered" then ("🚨", 15158332, "ALERT TRIGGERED")
  else if state = "active" then ("⚠️", 16776960, "STILL ALERTING")
  else if state = "recovered" then ("✅", 3066993, "RECOVERED")
  else ("📊", 3066993, state.toUpper)

/-- The (emoji, color, stateText) selection of the slack branch of
`formatWebhookPayload` (src/demo.sh lines 981-998). -/
def slackStateTriple (state : String) : String × String × String :=
  if state = "entered" then ("🚨", "danger", "ALERT TRIGGERED")
  else if state = "active" then ("⚠️", "warning", "STILL ALERTING")
  else if state = "recovered" then ("✅", "good", "RECOVERED")
  else ("📊", "#36a64f", state.toUpper)

/-- The discord branch of `formatWebhookPayload` (src/demo.sh lines 904-976):
base fields Metric / Condition / Current Value / App ID, then the consecutive
counters appended only when JS-truthy (present and nonzero). -/
def formatDiscord (p : WebhookPayload) : DiscordBody :=
  let tri := discordStateTriple p.state
  let baseFields : List DiscordField :=
    [⟨"Metric", p.alert.metric, true⟩,
     ⟨"Condition", p.alert.condition ++ " " ++ p.alert.threshold, true⟩,
     ⟨"Current Value", p.value, true⟩,
     ⟨"App ID", p.appId, true⟩]
  let breachFields : List DiscordField :=
    match p.consecutiveBreaches with
    | some n => if n = 0 then [] else [⟨"Consecutive Breaches", toString n, true⟩]
    | none => []
  let recoveryFields : List DiscordField :=
    match p.consecutiveRecoveries with
    | some n => if n = 0 then [] else [⟨"Consecutive Recoveries", toString n, true⟩]
    | none => []
  { title := tri.1 ++ " " ++ tri.2.2
    color := tri.2.1
    fields := baseFields ++ breachFields ++ recoveryFields
    footerText := "Metric Collector"
    timestamp := p.triggeredAt }

/-- The `Consecutive Breaches` line of the slack message, appended only when
the payload field is JS-truthy (present and nonzero). -/
def slackBreachSegment (p : WebhookPayload) : String :=
  match p.consecutiveBreaches with
  | some n => if n = 0 then "" else "*Consecutive Breaches:* " ++ toString n ++ "\n"
  | none => ""

/-- The `Consecutive Recoveries` line of the slack message, appended only
when the payload field is JS-truthy (present and nonzero). -/
def slackRecoverySegment (p : WebhookPayload) : String :=
  match p.consecutiveRecoveries with
  | some n => if n = 0 then "" else "*Consecutive Recoveries:* " ++ toString n ++ "\n"
  | none => ""

/-- The slack branch of `formatWebhookPayload` (src/demo.sh lines 978-1023):
a text message assembled by successive concatenation, plus an attachment with
color, footer, and `ts = Math.floor(new Date(triggeredAt).getTime() / 1000)`. -/
def formatSlack (p : WebhookPayload) : SlackBody :=
  let tri := slackStateTriple p.state
  let message :=
    tri.1 ++ " *" ++ tri.2.2 ++ "*\n\n" ++
    "*Metric:* " ++ p.alert.metric ++ "\n" ++
    "*Condition:* " ++ p.alert.condition ++ " " ++ p.alert.threshold ++ "\n" ++
    "*Current Value:* " ++ p.value ++ "\n" ++
    "*App ID:* " ++ p.appId ++ "\n" ++
    slackBreachSegment p ++ slackRecoverySegment p
  { text := message
    color := tri.2.1
    footer := "Metric Collector"
    ts := (jsDateParseMs p.triggeredAt).map (fun ms => Int.fdiv ms 1000) }

/-- Embedding of `formatWebhookPayload(payload, format)`
(src/demo.sh lines 903-1027): discord and slack get dedicated bodies, every
other tag falls through to the generic passthrough. -/
def formatWebhookPayload (p : WebhookPayload) (format : String) : FormattedBody :=
  if format = "discord" then .discord (formatDiscord p)
  else if format = "slack" then .slack (formatSlack p)
  else .generic p

/-- String containment: the needle occurs as a contiguous substring of the
haystack (decidable via `List.decidableInfix`). -/
def includesStr (needle haystack : String) : Prop :=
  needle.data <:+: haystack.data

instance (needle haystack : String) : Decidable (includesStr needle haystack) :=
  List.decidableInfix needle.data haystack.data

/-- A string occurs in any concatenation that contains it as a middle factor. -/
theorem includesStr_mid (pre x post : String) : includesStr x (pre ++ x ++ post) := by
  unfold includesStr
  simp [String.data_append]

/-- Concrete enabled webhook destination used by witnesses. -/
def hookA : Webhook := ⟨1, "app1", "ops-hook", "http://example.com/hook", "generic", true⟩

/-- Concrete breaching sample value (95, against threshold 80 with `>`). -/
def vBreach : JsValue := ⟨"95", some 95⟩

/-- Concrete non-breaching sample value. -/
def vNormal : JsValue := ⟨"50", some 50⟩

/-- Concrete alert configuration used by witnesses: `cpu_usage > 80`,
`enterThreshold = 3`, `exitThreshold = 3`, fresh runtime state. -/
def alertBase : Alert :=
  { id := 1, appId := "app1", metric := "cpu_usage", condition := ">",
    threshold := ⟨"80", some 80⟩, enterThreshold := 3, exitThreshold := 3,
    webhookFrequencyMinutes := 5, enabled := true, consecutiveBreaches := 0,
    consecutiveRecoveries := 0, isAlerting := false, lastTriggered := none,
    treatMissingAsBreach := false, expectedIntervalSeconds := 30,
    lastDataTimestamp := none }

/-- C1: for an enabled alert and a breaching sample, if the alert was not
alerting and the incremented consecutive-breach count reaches
`enterThreshold`, the observe step produces exactly one `entered`
notification request per destination, sets `isAlerting` to true, resets
`consecutiveRecoveries` to 0, and sets `lastTriggered` to the sample
timestamp. -/
theorem c1_enter_alert_state (webhooks : List Webhook) (appId metricName : String)
    (value : JsValue) (timestamp : Int) (alert : Alert)
    (_hEnabled : alert.enabled = true)
    (hInactive : alert.isAlerting = false)
    (hBreach : checkAlertCondition value alert.condition alert.threshold = true)
    (hThreshold : alert.enterThreshold ≤ alert.consecutiveBreaches + 1) :
    processAlertSample webhooks appId metricName value timestamp alert =
      ({ alert with consecutiveBreaches := alert.consecutiveBreaches + 1,
                    consecutiveRecoveries := 0,
                    isAlerting := true,
                    lastTriggered := some timestamp,
                    lastDataTimestamp := some timestamp },
       webhooks.map (fun w =>
         ⟨w, enteredPayload appId metricName value timestamp alert (alert.consecutiveBreaches + 1)⟩)) := by
  simp [processAlertSample, hBreach, hInactive, hThreshold]

/-- Witness for C1 at a concrete input. -/
theorem c1_enter_alert_state_witness :
    checkAlertCondition vBreach alertBase.condition alertBase.threshold = true
    ∧ processAlertSample [hookA] "app1" "cpu_usage" vBreach 3
        { alertBase with consecutiveBreaches := 2 } =
      ({ alertBase with consecutiveBreaches := 3, consecutiveRecoveries := 0,
                        isAlerting := true, lastTriggered := some 3, lastDataTimestamp := some 3 },
       [⟨hookA, enteredPayload "app1" "cpu_usage" vBreach 3
          { alertBase with consecutiveBreaches := 2 } 3⟩]) :=
  ⟨by decide,
   c1_enter_alert_state [hookA] "app1" "cpu_usage" vBreach 3
     { alertBase with consecutiveBreaches := 2 } rfl rfl (by decide) (by decide)⟩

/-- C2: for an enabled alert and a non-breaching sample, if the alert was
alerting and the incremented consecutive-recovery count reaches
`exitThreshold`, the observe step produces exactly one `recovered`
notification request per destination, sets `isAlerting` to false, resets
`consecutiveBreaches` to 0, and leaves `lastTriggered` unchanged (the
resulting row keeps the input `lastTriggered`). -/
theorem c2_exit_alert_state (webhooks : List Webhook) (appId metricName : String)
    (value : JsValue) (timestamp : Int) (alert : Alert)
    (_hEnabled : alert.enabled = true)
    (hActive : alert.isAlerting = true)
    (hNoBreach : checkAlertCondition value alert.condition alert.threshold = false)
    (hThreshold : alert.exitThreshold ≤ alert.consecutiveRecoveries + 1) :
    processAlertSample webhooks appId metricName value timestamp alert =
      ({ alert with consecutiveBreaches := 0,
                    consecutiveRecoveries := alert.consecutiveRecoveries + 1,
                    isAlerting := false,
                    lastDataTimestamp := some timestamp },
       webhooks.map (fun w =>
         ⟨w, recoveredPayload appId metricName value timestamp alert (alert.consecutiveRecoveries + 1)⟩)) := by
  simp [processAlertSample, hNoBreach, hActive, hThreshold]

/-- Witness for C2 at a concrete input; in particular the resulting
`lastTriggered` is the unchanged input value `some 3`. -/
theorem c2_exit_alert_state_witness :
    checkAlertCondition vNormal alertBase.condition alertBase.threshold = false
    ∧ processAlertSample [hookA] "app1" "cpu_usage" vNormal 9
        { alertBase with consecutiveRecoveries := 2, isAlerting := true, lastTriggered := some 3 } =
      ({ alertBase with consecutiveBreaches := 0, consecutiveRecoveries := 3,
                        isAlerting := false, lastTriggered := some 3, lastDataTimestamp := some 9 },
       [⟨hookA, recoveredPayload "app1" "cpu_usage" vNormal 9
          { alertBase with consecutiveRecoveries := 2, isAlerting := true, lastTriggered := some 3 } 3⟩]) :=
  ⟨by decide,
   c2_exit_alert_state [hookA] "app1" "cpu_usage" vNormal 9
     { alertBase with consecutiveRecoveries := 2, isAlerting := true, lastTriggered := some 3 }
     rfl rfl (by decide) (by decide)⟩

/-- The contested-recovery scenario of the spec: three breaches (entering the
alert state), two recoveries, then a single stray breach. -/
def seqContested : List (JsValue × Int) :=
  [(vBreach, 1), (vBreach, 2), (vBreach, 3), (vNormal, 4), (vNormal, 5), (vBreach, 6)]

/-- The full re-breach scenario: the contested sequence continued with two
more breaches, so that three consecutive breaches are reached again. -/
def seqRebreach : List (JsValue × Int) :=
  seqContested ++ [(vBreach, 7), (vBreach, 8)]

/-- C3: contested-recovery rule.  While alerting with a nonzero recovery
count, a breach keeps the recovery counter unless the incremented breach
count reaches `enterThreshold` again, in which case the counter resets to 0
and no `entered` notification is re-emitted; concretely, with
`enterThreshold = 3` and `exitThreshold = 3` the sequence
[breach, breach, breach, non-breach, non-breach, breach] leaves the alert
active with `consecutiveRecoveries = 2`, and continuing with two more
breaches resets the counter to 0 with `entered` emitted only once in the
whole run. -/
theorem c3_contested_recovery :
    (∀ (webhooks : List Webhook) (appId metricName : String) (value : JsValue)
       (timestamp : Int) (alert : Alert),
       alert.isAlerting = true →
       0 < alert.consecutiveRecoveries →
       checkAlertCondition value alert.condition alert.threshold = true →
       alert.consecutiveBreaches + 1 < alert.enterThreshold →
       (processAlertSample webhooks appId metricName value timestamp alert).1.consecutiveRecoveries
         = alert.consecutiveRecoveries)
    ∧ (∀ (webhooks : List Webhook) (appId metricName : String) (value : JsValue)
       (timestamp : Int) (alert : Alert),
       alert.isAlerting = true →
       0 < alert.consecutiveRecoveries →
       checkAlertCondition value alert.condition alert.threshold = true →
       alert.enterThreshold ≤ alert.consecutiveBreaches + 1 →
       (processAlertSample webhooks appId metricName value timestamp alert).1.consecutiveRecoveries = 0
       ∧ ∀ c ∈ (processAlertSample webhooks appId metricName value timestamp alert).2,
           c.payload.state ≠ "entered")
    ∧ ((runSamples [hookA] "app1" "cpu_usage" seqContested alertBase).1.isAlerting = true
       ∧ (runSamples [hookA] "app1" "cpu_usage" seqContested alertBase).1.consecutiveRecoveries = 2)
    ∧ ((runSamples [hookA] "app1" "cpu_usage" seqRebreach alertBase).1.consecutiveRecoveries = 0
       ∧ (runSamples [hookA] "app1" "cpu_usage" seqRebreach alertBase).1.isAlerting = true
       ∧ (runSamples [hookA] "app1" "cpu_usage" seqRebreach alertBase).2.map
           (fun c => c.payload.state) = ["entered"]) := by
  refine ⟨?_, ?_, by decide, by decide⟩
  · intro webhooks appId metricName value timestamp alert hA hR hB hLt
    simp [processAlertSample, hB, hA, hR, hLt]
    split <;> simp_all
  · intro webhooks appId metricName value timestamp alert hA hR hB hGe
    have hLt : ¬ alert.consecutiveBreaches + 1 < alert.enterThreshold := by omega
    simp [processAlertSample, hB, hA, hR, hLt]
    split <;> simp_all [activePayload]

/-- Witness for the universally quantified parts of C3 at a concrete input:
a stray breach while recovering (breach count 0 → 1 < 3) keeps the recovery
counter at 2, and a third re-breach resets it to 0 without `entered`. -/
theorem c3_contested_recovery_witness :
    ((processAlertSample [hookA] "app1" "cpu_usage" vBreach 6
        { alertBase with isAlerting := true, consecutiveRecoveries := 2,
                         lastTriggered := some 3, lastDataTimestamp := some 5 }).1.consecutiveRecoveries = 2)
    ∧ ((processAlertSample [hookA] "app1" "cpu_usage" vBreach 8
        { alertBase with isAlerting := true, consecutiveRecoveries := 2, consecutiveBreaches := 2,
                         lastTriggered := some 3, lastDataTimestamp := some 7 }).1.consecutiveRecoveries = 0) :=
  ⟨c3_contested_recovery.1 [hookA] "app1" "cpu_usage" vBreach 6
     { alertBase with isAlerting := true, consecutiveRecoveries := 2,
                      lastTriggered := some 3, lastDataTimestamp := some 5 }
     rfl (by decide) (by decide) (by decide),
   (c3_contested_recovery.2.1 [hookA] "app1" "cpu_usage" vBreach 8
     { alertBase with isAlerting := true, consecutiveRecoveries := 2, consecutiveBreaches := 2,
                      lastTriggered := some 3, lastDataTimestamp := some 7 }
     rfl (by decide) (by decide) (by decide)).1⟩

/-- Concrete alert for the repeat-cadence bug: alerting, repeat interval 5
minutes, last notified at second 1000. -/
def alertC4 : Alert :=
  { alertBase with isAlerting := true, consecutiveBreaches := 1, lastTriggered := some 1000 }

/-- C4 (code bug): the sample path compares the elapsed time, measured in
seconds, against `webhookFrequencyMinutes * 60 * 1000`, a milliseconds value
(src/demo.sh line 1203), while the ingestion handler floors timestamps to
seconds (line 1890).  At a breach sample 300 seconds (exactly the configured
5 minutes) after `lastTriggered`, no `active` repeat is emitted and
`lastTriggered` is not advanced; the repeat fires only once 300000 seconds
(about 3.5 days) have elapsed.  The sweep path uses
`webhookFrequencyMinutes * 60` (line 1378) and the column comment documents
"Minutes between webhook calls while in alert state" (line 590), so the
sample path is a unit slip. -/
theorem c4_repeat_interval_unit_bug :
    checkAlertCondition vBreach alertC4.condition alertC4.threshold = true
    ∧ alertC4.isAlerting = true
    ∧ alertC4.webhookFrequencyMinutes = 5
    ∧ alertC4.lastTriggered = some 1000
    ∧ (1300 : Int) - 1000 = 5 * 60
    ∧ (processAlertSample [hookA] "app1" "cpu_usage" vBreach 1300 alertC4).2 = []
    ∧ (processAlertSample [hookA] "app1" "cpu_usage" vBreach 1300 alertC4).1.lastTriggered = some 1000
    ∧ (301000 : Int) - 1000 = 5 * 60 * 1000
    ∧ (processAlertSample [hookA] "app1" "cpu_usage" vBreach 301000 alertC4).2.map
        (fun c => c.payload.state) = ["active"]
    ∧ (processAlertSample [hookA] "app1" "cpu_usage" vBreach 301000 alertC4).1.lastTriggered
        = some 301000 := by
  decide

/-- C5: missing-data sweep contract.  On one sweep tick, an enabled alert
opted into gap detection receives exactly one synthetic breach (its
consecutive-breach count increments by exactly one) precisely when
`lastDataTimestamp` is set and at least two full expected intervals have
elapsed; an alert that never received data is untouched, and below the 2x
debounce nothing changes.  The positivity hypotheses reflect alert creation,
which rejects a missing or zero `expectedIntervalSeconds` for opted-in
alerts, and ingestion, which only stores positive epoch seconds. -/
theorem c5_missing_data_gap (a : Alert) (webhookTable : List Webhook) (now : Int)
    (hEnabled : a.enabled = true) (hOpt : a.treatMissingAsBreach = true)
    (hInterval : 0 < a.expectedIntervalSeconds)
    (hSet : ∀ t, a.lastDataTimestamp = some t → 0 < t) :
    (a.lastDataTimestamp = none → checkForMissingData [a] webhookTable now = ([a], []))
    ∧ (∀ t, a.lastDataTimestamp = some t →
        (2 * a.expectedIntervalSeconds ≤ now - t →
          (checkForMissingData [a] webhookTable now).1.map Alert.consecutiveBreaches
            = [a.consecutiveBreaches + 1])
        ∧ (now - t < 2 * a.expectedIntervalSeconds →
          checkForMissingData [a] webhookTable now = ([a], []))) := by
  constructor
  · intro hnone
    simp [checkForMissingData, sweepMatches, hEnabled, hOpt, sweepAlert, hnone]
  · intro t ht
    have ht0 : ¬ t = 0 := by have := hSet t ht; omega
    have hconv : (2 ≤ Int.fdiv (now - t) a.expectedIntervalSeconds)
        ↔ 2 * a.expectedIntervalSeconds ≤ now - t := by
      rw [Int.fdiv_eq_ediv _ (le_of_lt hInterval), Int.le_ediv_iff_mul_le hInterval]
    constructor
    · intro hgap
      have h2 : 2 ≤ Int.fdiv (now - t) a.expectedIntervalSeconds := hconv.mpr hgap
      simp [checkForMissingData, sweepMatches, hEnabled, hOpt, sweepAlert, ht, ht0, h2]
      split_ifs <;> simp_all
    · intro hlt
      have h2 : ¬ 2 ≤ Int.fdiv (now - t) a.expectedIntervalSeconds := by
        rw [hconv]; omega
      simp [checkForMissingData, sweepMatches, hEnabled, hOpt, sweepAlert, ht, ht0, h2]

/-- Concrete opted-in alert for the C5 witness: expected interval 30 s, last
sample at second 1000. -/
def alertMiss : Alert :=
  { alertBase with treatMissingAsBreach := true, lastDataTimestamp := some 1000 }

/-- Witness for C5 at the concrete scenario of the spec: 70 seconds without
data against a 30-second expected interval (2.33 intervals) yields exactly
one synthetic breach on the tick, not two. -/
theorem c5_missing_data_gap_witness :
    alertMiss.enabled = true
    ∧ alertMiss.treatMissingAsBreach = true
    ∧ alertMiss.expectedIntervalSeconds = 30
    ∧ alertMiss.lastDataTimestamp = some 1000
    ∧ 2 * (30 : Int) ≤ 1070 - 1000
    ∧ (checkForMissingData [alertMiss] [hookA] 1070).1.map Alert.consecutiveBreaches = [1] :=
  ⟨rfl, rfl, rfl, rfl, by decide,
   ((c5_missing_data_gap alertMiss [hookA] 1070 rfl rfl (by decide)
       (by intro t ht; simp [alertMiss, alertBase] at ht; omega)).2 1000 rfl).1 (by decide)⟩

/-- Concrete active, recovering alert for the C6 counterexample: alerting,
`consecutiveRecoveries = 2`, breach count 0, gap condition satisfied at
`now = 1070`. -/
def alertC6 : Alert :=
  { alertBase with isAlerting := true, consecutiveRecoveries := 2,
                   lastTriggered := some 1000, lastDataTimestamp := some 1000,
                   treatMissingAsBreach := true }

/-- Counterexample to C6 as stated: from the same runtime state (active,
recovering with 2 recoveries, breach count 0, `enterThreshold = 3`), one
synthetic missing-data breach resets `consecutiveRecoveries` to 0 while one
real breach observation keeps it at 2 (the contested-recovery branch exists
only in the real-sample path), so the sweep does not apply the same
transition logic. -/
theorem c6_sweep_divergence_counterexample :
    2 * alertC6.expectedIntervalSeconds ≤ (1070 : Int) - 1000
    ∧ checkAlertCondition vBreach alertC6.condition alertC6.threshold = true
    ∧ (sweepAlert [hookA] 1070 alertC6).1.consecutiveRecoveries = 0
    ∧ (processAlertSample [hookA] "app1" "cpu_usage" vBreach 1070 alertC6).1.consecutiveRecoveries = 2
    ∧ (sweepAlert [hookA] 1070 alertC6).1.consecutiveRecoveries
        ≠ (processAlertSample [hookA] "app1" "cpu_usage" vBreach 1070 alertC6).1.consecutiveRecoveries := by
  decide

/-- C6 (amended): when the alert is not active, one synthetic missing-data
breach from the sweep yields the same `consecutiveBreaches`,
`consecutiveRecoveries`, `isAlerting`, and notification kinds as one real
breach observation, with the sweep payloads tagged `reason: missing_data`
and carrying the `NO DATA` sentinel value; while active the sweep diverges
(it always resets `consecutiveRecoveries` and compares the repeat interval
in seconds instead of the sample path's milliseconds value). -/
theorem c6_sweep_matches_real_breach_when_inactive (webhooks : List Webhook)
    (appId : String) (value : JsValue) (now t : Int) (a : Alert)
    (hInactive : a.isAlerting = false)
    (hBreach : checkAlertCondition value a.condition a.threshold = true)
    (ht : a.lastDataTimestamp = some t) (ht0 : ¬ t = 0)
    (hGap : 2 ≤ Int.fdiv (now - t) a.expectedIntervalSeconds) :
    ((sweepAlert webhooks now a).1.consecutiveBreaches
        = (processAlertSample webhooks appId a.metric value now a).1.consecutiveBreaches)
    ∧ ((sweepAlert webhooks now a).1.consecutiveRecoveries
        = (processAlertSample webhooks appId a.metric value now a).1.consecutiveRecoveries)
    ∧ ((sweepAlert webhooks now a).1.isAlerting
        = (processAlertSample webhooks appId a.metric value now a).1.isAlerting)
    ∧ ((sweepAlert webhooks now a).2.map (fun c => c.payload.state)
        = (processAlertSample webhooks appId a.metric value now a).2.map (fun c => c.payload.state))
    ∧ (∀ c ∈ (sweepAlert webhooks now a).2,
        c.payload.reason = some "missing_data" ∧ c.payload.value = noDataValue) := by
  by_cases hEnter : a.enterThreshold ≤ a.consecutiveBreaches + 1
  · simp [sweepAlert, processAlertSample, ht, ht0, hGap, hBreach, hInactive, hEnter,
          missingEnteredPayload, enteredPayload]
  · simp [sweepAlert, processAlertSample, ht, ht0, hGap, hBreach, hInactive, hEnter]

/-- Concrete inactive opted-in alert for the C6 witness, two breaches away
from a fresh state so the synthetic breach triggers entry. -/
def alertW6 : Alert :=
  { alertBase with treatMissingAsBreach := true, lastDataTimestamp := some 1000,
                   consecutiveBreaches := 2 }

/-- Witness for the amended C6 at a concrete input: both paths enter the
alert state with breach count 3 and emit one `entered` notification. -/
theorem c6_sweep_matches_real_breach_witness :
    ((sweepAlert [hookA] 1070 alertW6).1.consecutiveBreaches
        = (processAlertSample [hookA] "app1" alertW6.metric vBreach 1070 alertW6).1.consecutiveBreaches)
    ∧ ((sweepAlert [hookA] 1070 alertW6).2.map (fun c => c.payload.state)
        = (processAlertSample [hookA] "app1" alertW6.metric vBreach 1070 alertW6).2.map
            (fun c => c.payload.state))
    ∧ (∀ c ∈ (sweepAlert [hookA] 1070 alertW6).2,
        c.payload.reason = some "missing_data" ∧ c.payload.value = noDataValue) :=
  have h := c6_sweep_matches_real_breach_when_inactive [hookA] "app1" vBreach 1070 1000 alertW6
    rfl (by decide) rfl (by decide) (by decide)
  ⟨h.1, h.2.2.2.1, h.2.2.2.2⟩

instance {ε α : Type} [DecidableEq ε] [DecidableEq α] : DecidableEq (Except ε α)
  | .ok a, .ok b =>
    if h : a = b then .isTrue (by rw [h])
    else .isFalse (by intro hh; injection hh; contradiction)
  | .ok _, .error _ => .isFalse (by intro h; exact Except.noConfusion h)
  | .error _, .ok _ => .isFalse (by intro h; exact Except.noConfusion h)
  | .error e, .error f =>
    if h : e = f then .isTrue (by rw [h])
    else .isFalse (by intro hh; injection hh; contradiction)

/-- A per-alert step that increments the breach counter but throws on the
alert with id 2, modelling a DB fault while persisting one alert. -/
def stepFaultOn2 (a : Alert) : Except String Alert :=
  if a.id = 2 then .error "db failure"
  else .ok { a with consecutiveBreaches := a.consecutiveBreaches + 1 }

/-- First of three sibling alerts under the same sample. -/
def alertSib1 : Alert := { alertBase with id := 1 }

/-- Second sibling; its evaluation faults. -/
def alertSib2 : Alert := { alertBase with id := 2 }

/-- Third sibling; its evaluation would succeed and change it. -/
def alertSib3 : Alert := { alertBase with id := 3 }

/-- Counterexample to C7 as stated: with three sibling alerts where the
second faults, the loop leaves the third alert unevaluated (returned
unchanged even though its step would succeed and change it), because the
single function-level catch aborts the whole loop. -/
theorem c7_sibling_not_isolated_counterexample :
    processAlertsExc stepFaultOn2 [alertSib1, alertSib2, alertSib3]
      = [{ alertSib1 with consecutiveBreaches := 1 }, alertSib2, alertSib3]
    ∧ stepFaultOn2 alertSib3 = .ok { alertSib3 with consecutiveBreaches := 1 }
    ∧ { alertSib3 with consecutiveBreaches := 1 } ≠ alertSib3 := by
  decide

/-- C7 (amended): the evaluation never raises to the caller (the whole loop
body is inside one catch, so the embedded loop is a total function), but
per-alert faults are not isolated: when the step succeeds on a prefix of the
alert list and throws on the next alert, the prefix keeps its updates while
the faulting alert and every later sibling are returned unevaluated. -/
theorem c7_fault_aborts_remaining_siblings (step : Alert → Except String Alert)
    (f : Alert → Alert) (l1 : List Alert) (a : Alert) (l2 : List Alert) (e : String)
    (hok : ∀ x ∈ l1, step x = .ok (f x)) (herr : step a = .error e) :
    processAlertsExc step (l1 ++ a :: l2) = l1.map f ++ a :: l2 := by
  induction l1 with
  | nil => simp [processAlertsExc, herr]
  | cons x xs ih =>
    have hx := hok x (by simp)
    have ih2 := ih (fun y hy => hok y (by simp [hy]))
    simp [processAlertsExc, hx, ih2]

/-- Witness for the amended C7 at a concrete input: the first sibling is
updated, the faulting second and untouched third are returned as-is. -/
theorem c7_fault_aborts_remaining_siblings_witness :
    (∀ x ∈ [alertSib1], stepFaultOn2 x = .ok { x with consecutiveBreaches := x.consecutiveBreaches + 1 })
    ∧ stepFaultOn2 alertSib2 = .error "db failure"
    ∧ processAlertsExc stepFaultOn2 ([alertSib1] ++ alertSib2 :: [alertSib3])
        = [alertSib1].map (fun x => { x with consecutiveBreaches := x.consecutiveBreaches + 1 })
          ++ alertSib2 :: [alertSib3] :=
  ⟨by decide, by decide,
   c7_fault_aborts_remaining_siblings stepFaultOn2
     (fun x => { x with consecutiveBreaches := x.consecutiveBreaches + 1 })
     [alertSib1] alertSib2 [alertSib3] "db failure" (by decide) (by decide)⟩

/-- C8: fail-open breach evaluation.  If either the value or the threshold
does not parse as a float (`parseFloat` yields `NaN`), the evaluator returns
false for every condition string rather than raising or returning true; for
numeric inputs it returns exactly the result of the selected comparison
operator applied to the parsed numbers. -/
theorem c8_fail_open_evaluation (value threshold : JsValue) :
    ((value.num = none ∨ threshold.num = none) →
      ∀ condition, checkAlertCondition value condition threshold = false)
    ∧ (∀ a b, value.num = some a → threshold.num = some b →
        checkAlertCondition value ">" threshold = decide (a > b)
        ∧ checkAlertCondition value "<" threshold = decide (a < b)
        ∧ checkAlertCondition value ">=" threshold = decide (a ≥ b)
        ∧ checkAlertCondition value "<=" threshold = decide (a ≤ b)
        ∧ checkAlertCondition value "==" threshold = decide (a = b)
        ∧ checkAlertCondition value "!=" threshold = decide (¬ a = b)) := by
  constructor
  · rintro (h | h) condition <;> simp [checkAlertCondition, h]
  · intro a b ha hb
    refine ⟨?_, ?_, ?_, ?_, ?_, ?_⟩ <;> simp [checkAlertCondition, ha, hb]

/-- A value that does not parse as a float. -/
def vNonNumeric : JsValue := ⟨"definitely not a number", none⟩

/-- Witness for C8 at concrete inputs: a non-numeric value fails open under
`>`, and numeric inputs 95 and 80 compare exactly. -/
theorem c8_fail_open_evaluation_witness :
    checkAlertCondition vNonNumeric ">" (⟨"80", some 80⟩ : JsValue) = false
    ∧ checkAlertCondition vBreach ">" (⟨"80", some 80⟩ : JsValue) = decide ((95 : ℚ) > 80)
    ∧ checkAlertCondition vBreach "==" (⟨"80", some 80⟩ : JsValue) = decide ((95 : ℚ) = (80 : ℚ)) :=
  ⟨(c8_fail_open_evaluation vNonNumeric ⟨"80", some 80⟩).1 (Or.inl rfl) ">",
   ((c8_fail_open_evaluation vBreach ⟨"80", some 80⟩).2 95 80 rfl rfl).1,
   ((c8_fail_open_evaluation vBreach ⟨"80", some 80⟩).2 95 80 rfl rfl).2.2.2.2.1⟩

/-- C10: no-destination short-circuit.  If no enabled alert matches the
(app, metric) pair, or the tenant has no enabled webhook destination, the
state-machine evaluation returns the alert table unchanged (every runtime
field of every alert untouched, including `lastDataTimestamp`) and makes no
webhook call. -/
theorem c10_no_webhook_short_circuit (alertTable : List Alert)
    (webhookTable : List Webhook) (appId metricName : String)
    (value : JsValue) (timestamp : Int) :
    (alertTable.filter (alertMatches appId metricName) = [] →
      checkAndTriggerAlerts alertTable webhookTable appId metricName value timestamp
        = (alertTable, []))
    ∧ (webhookTable.filter (webhookMatches appId) = [] →
      checkAndTriggerAlerts alertTable webhookTable appId metricName value timestamp
        = (alertTable, [])) := by
  constructor
  · intro h
    simp [checkAndTriggerAlerts, h]
  · intro h
    by_cases ha : alertTable.filter (alertMatches appId metricName) = [] <;>
      simp [checkAndTriggerAlerts, h, ha]

/-- A webhook destination that exists but is disabled. -/
def hookDisabled : Webhook := ⟨2, "app1", "off-hook", "http://example.com/off", "generic", false⟩

/-- Witness for C10 at a concrete input: with a matching enabled alert but
only a disabled webhook destination, nothing changes and nothing is called;
with no matching alert the same holds. -/
theorem c10_no_webhook_short_circuit_witness :
    alertBase.enabled = true
    ∧ [hookDisabled].filter (webhookMatches "app1") = []
    ∧ checkAndTriggerAlerts [alertBase] [hookDisabled] "app1" "cpu_usage" vBreach 5
        = ([alertBase], [])
    ∧ checkAndTriggerAlerts [alertBase] [hookA] "app1" "disk_usage" vBreach 5
        = ([alertBase], []) :=
  ⟨rfl, by decide,
   (c10_no_webhook_short_circuit [alertBase] [hookDisabled] "app1" "cpu_usage" vBreach 5).2
     (by decide),
   (c10_no_webhook_short_circuit [alertBase] [hookA] "app1" "disk_usage" vBreach 5).1
     (by decide)⟩

/-- Concrete `entered` transition payload used to examine the formatter. -/
def payloadC9 : WebhookPayload :=
  { appId := "app1"
    alert := { id := 1, metric := "cpu_usage", condition := ">", threshold := "80" }
    value := "95"
    timestamp := 1705314600
    state := "entered"
    consecutiveBreaches := some 3
    triggeredAt := "2024-01-15T10:30:00.000Z" }

set_option maxRecDepth 4096 in
/-- Counterexample to C9 as stated: for the slack format, the produced
message body contains no ISO-8601 timestamp.  The ISO string of the payload
occurs nowhere in the text, and the remaining body components are the fixed
color and footer strings and a numeric Unix-epoch-seconds `ts`, so nothing
in the slack body is an ISO-8601 timestamp. -/
theorem c9_slack_timestamp_counterexample :
    payloadC9.triggeredAt = "2024-01-15T10:30:00.000Z"
    ∧ formatWebhookPayload payloadC9 "slack" = .slack (formatSlack payloadC9)
    ∧ ¬ includesStr payloadC9.triggeredAt (formatSlack payloadC9).text
    ∧ (formatSlack payloadC9).color = "danger"
    ∧ (formatSlack payloadC9).footer = "Metric Collector"
    ∧ (formatSlack payloadC9).ts = some 1705314600 := by
  refine ⟨rfl, rfl, by decide, rfl, rfl, by decide⟩

/-- C9 (amended): formatter contract for the non-generic tags.  The discord
and slack branches map the transition kind to the documented color/emoji
triples; both bodies include the metric name, the condition with threshold,
the current value, the tenant (app) id, and whichever consecutive counter is
present and nonzero in the payload; the discord body carries the ISO-8601
`triggeredAt` timestamp, while the slack body carries the timestamp only as
Unix epoch seconds in its attachment `ts` field (not as an ISO-8601 string,
the amended part). -/
theorem c9_formatter_contract (p : WebhookPayload) :
    (p.state = "entered" →
      (formatDiscord p).title = "🚨 ALERT TRIGGERED"
      ∧ (formatDiscord p).color = 15158332
      ∧ (formatSlack p).color = "danger")
    ∧ (p.state = "active" →
      (formatDiscord p).title = "⚠️ STILL ALERTING"
      ∧ (formatDiscord p).color = 16776960
      ∧ (formatSlack p).color = "warning")
    ∧ (p.state = "recovered" →
      (formatDiscord p).title = "✅ RECOVERED"
      ∧ (formatDiscord p).color = 3066993
      ∧ (formatSlack p).color = "good")
    ∧ (⟨"Metric", p.alert.metric, true⟩ ∈ (formatDiscord p).fields
      ∧ ⟨"Condition", p.alert.condition ++ " " ++ p.alert.threshold, true⟩ ∈ (formatDiscord p).fields
      ∧ ⟨"Current Value", p.value, true⟩ ∈ (formatDiscord p).fields
      ∧ ⟨"App ID", p.appId, true⟩ ∈ (formatDiscord p).fields
      ∧ (formatDiscord p).timestamp = p.triggeredAt)
    ∧ (includesStr ("*Metric:* " ++ p.alert.metric ++ "\n") (formatSlack p).text
      ∧ includesStr ("*Condition:* " ++ p.alert.condition ++ " " ++ p.alert.threshold ++ "\n") (formatSlack p).text
      ∧ includesStr ("*Current Value:* " ++ p.value ++ "\n") (formatSlack p).text
      ∧ includesStr ("*App ID:* " ++ p.appId ++ "\n") (formatSlack p).text)
    ∧ (∀ n, p.consecutiveBreaches = some n → ¬ n = 0 →
      ⟨"Consecutive Breaches", toString n, true⟩ ∈ (formatDiscord p).fields
      ∧ includesStr ("*Consecutive Breaches:* " ++ toString n ++ "\n") (formatSlack p).text)
    ∧ (∀ n, p.consecutiveRecoveries = some n → ¬ n = 0 →
      ⟨"Consecutive Recoveries", toString n, true⟩ ∈ (formatDiscord p).fields
      ∧ includesStr ("*Consecutive Recoveries:* " ++ toString n ++ "\n") (formatSlack p).text)
    ∧ (∀ ms, jsDateParseMs p.triggeredAt = some ms →
      (formatSlack p).ts = some (Int.fdiv ms 1000)) := by
  refine ⟨?_, ?_, ?_, ?_, ?_, ?_, ?_, ?_⟩
  · intro h
    refine ⟨?_, ?_, ?_⟩ <;> simp [formatDiscord, formatSlack, discordStateTriple, slackStateTriple, h]
  · intro h
    refine ⟨?_, ?_, ?_⟩ <;> simp [formatDiscord, formatSlack, discordStateTriple, slackStateTriple, h]
  · intro h
    refine ⟨?_, ?_, ?_⟩ <;> simp [formatDiscord, formatSlack, discordStateTriple, slackStateTriple, h]
  · refine ⟨?_, ?_, ?_, ?_, ?_⟩ <;> simp [formatDiscord]
  · refine ⟨?_, ?_, ?_, ?_⟩
    · have h : (formatSlack p).text =
          ((slackStateTriple p.state).1 ++ " *" ++ (slackStateTriple p.state).2.2 ++ "*\n\n")
          ++ ("*Metric:* " ++ p.alert.metric ++ "\n")
          ++ ("*Condition:* " ++ p.alert.condition ++ " " ++ p.alert.threshold ++ "\n" ++
              "*Current Value:* " ++ p.value ++ "\n" ++
              "*App ID:* " ++ p.appId ++ "\n" ++
              slackBreachSegment p ++ slackRecoverySegment p) := by
        simp only [formatSlack, String.append_assoc]
      rw [h]; exact includesStr_mid _ _ _
    · have h : (formatSlack p).text =
          ((slackStateTriple p.state).1 ++ " *" ++ (slackStateTriple p.state).2.2 ++ "*\n\n" ++
           "*Metric:* " ++ p.alert.metric ++ "\n")
          ++ ("*Condition:* " ++ p.alert.condition ++ " " ++ p.alert.threshold ++ "\n")
          ++ ("*Current Value:* " ++ p.value ++ "\n" ++
              "*App ID:* " ++ p.appId ++ "\n" ++
              slackBreachSegment p ++ slackRecoverySegment p) := by
        simp only [formatSlack, String.append_assoc]
      rw [h]; exact includesStr_mid _ _ _
    · have h : (formatSlack p).text =
          ((slackStateTriple p.state).1 ++ " *" ++ (slackStateTriple p.state).2.2 ++ "*\n\n" ++
           "*Metric:* " ++ p.alert.metric ++ "\n" ++
           "*Condition:* " ++ p.alert.condition ++ " " ++ p.alert.threshold ++ "\n")
          ++ ("*Current Value:* " ++ p.value ++ "\n")
          ++ ("*App ID:* " ++ p.appId ++ "\n" ++
              slackBreachSegment p ++ slackRecoverySegment p) := by
        simp only [formatSlack, String.append_assoc]
      rw [h]; exact includesStr_mid _ _ _
    · have h : (formatSlack p).text =
          ((slackStateTriple p.state).1 ++ " *" ++ (slackStateTriple p.state).2.2 ++ "*\n\n" ++
           "*Metric:* " ++ p.alert.metric ++ "\n" ++
           "*Condition:* " ++ p.alert.condition ++ " " ++ p.alert.threshold ++ "\n" ++
           "*Current Value:* " ++ p.value ++ "\n")
          ++ ("*App ID:* " ++ p.appId ++ "\n")
          ++ (slackBreachSegment p ++ slackRecoverySegment p) := by
        simp only [formatSlack, String.append_assoc]
      rw [h]; exact includesStr_mid _ _ _
  · intro n hn hn0
    constructor
    · simp [formatDiscord, hn, hn0]
    · have hseg : slackBreachSegment p = "*Consecutive Breaches:* " ++ toString n ++ "\n" := by
        simp [slackBreachSegment, hn, hn0]
      have h : (formatSlack p).text =
          ((slackStateTriple p.state).1 ++ " *" ++ (slackStateTriple p.state).2.2 ++ "*\n\n" ++
           "*Metric:* " ++ p.alert.metric ++ "\n" ++
           "*Condition:* " ++ p.alert.condition ++ " " ++ p.alert.threshold ++ "\n" ++
           "*Current Value:* " ++ p.value ++ "\n" ++
           "*App ID:* " ++ p.appId ++ "\n")
          ++ ("*Consecutive Breaches:* " ++ toString n ++ "\n")
          ++ slackRecoverySegment p := by
        simp only [formatSlack, hseg, String.append_assoc]
      rw [h]; exact includesStr_mid _ _ _
  · intro n hn hn0
    constructor
    · simp [formatDiscord, hn, hn0]
    · have hseg : slackRecoverySegment p = "*Consecutive Recoveries:* " ++ toString n ++ "\n" := by
        simp [slackRecoverySegment, hn, hn0]
      have h : (formatSlack p).text =
          ((slackStateTriple p.state).1 ++ " *" ++ (slackStateTriple p.state).2.2 ++ "*\n\n" ++
           "*Metric:* " ++ p.alert.metric ++ "\n" ++
           "*Condition:* " ++ p.alert.condition ++ " " ++ p.alert.threshold ++ "\n" ++
           "*Current Value:* " ++ p.value ++ "\n" ++
           "*App ID:* " ++ p.appId ++ "\n" ++
           slackBreachSegment p)
          ++ ("*Consecutive Recoveries:* " ++ toString n ++ "\n")
          ++ "" := by
        simp only [formatSlack, hseg, String.append_assoc, String.append_empty]
      rw [h]; exact includesStr_mid _ _ _
  · intro ms hms
    simp [formatSlack, hms]

/-- Witness for C9 at the concrete `entered` payload. -/
theorem c9_formatter_contract_witness :
    (formatDiscord payloadC9).title = "🚨 ALERT TRIGGERED"
    ∧ DiscordField.mk "Consecutive Breaches" "3" true ∈ (formatDiscord payloadC9).fields
    ∧ includesStr ("*Consecutive Breaches:* " ++ toString 3 ++ "\n") (formatSlack payloadC9).text
    ∧ (formatSlack payloadC9).ts = some 1705314600 := by
  have h := c9_formatter_contract payloadC9
  refine ⟨(h.1 rfl).1, ?_, ?_, ?_⟩
  · exact (h.2.2.2.2.2.1 3 rfl (by decide)).1
  · exact (h.2.2.2.2.2.1 3 rfl (by decide)).2
  · have h3 := h.2.2.2.2.2.2.2 1705314600000 (by decide)
    rw [h3]
    decide
